import Mathlib

/-!
Verification development for the humblebundle-ebook-downloader CLI
(`index.js`).  The definitions below are a shallow embedding of the
download-orchestration core: the format normalization / extension rules,
the configuration-format validation in `main`, the ebook-platform order
filter in `fetchOrders`, the variant resolution in `downloadBundles`,
and the idempotent file materializer (`checkSignatureMatch`,
`downloadBook`, `handleFileDownloadError`, `downloadFile`) together with
the sequential batch driver.  Stateful code is embedded as explicit
state passing over a `DLState` record (filesystem contents, the
run-scoped `downloadErrors` collection, and the list of network fetches
performed); JavaScript exceptions are embedded with `Except`.
-/

namespace HB

/-- Embeds JavaScript `String.prototype.toLowerCase` for ASCII letters
(the only characters occurring in the format labels the code inspects). -/
def charToLower (c : Char) : Char :=
  if 'A' ≤ c ∧ c ≤ 'Z' then Char.ofNat (c.toNat + 32) else c

/-- `s.toLowerCase()` on the embedded string. -/
def strToLower (s : String) : String :=
  String.mk (s.data.map charToLower)

/-- `s.trim()` on the embedded string (strip leading and trailing
whitespace). -/
def strTrim (s : String) : String :=
  String.mk (((s.data.dropWhile Char.isWhitespace).reverse.dropWhile
    Char.isWhitespace).reverse)

/-- JavaScript truthiness of an optional string-valued field:
`undefined` and the empty string are falsy. -/
def jsTruthyStr : Option String → Bool
  | none => false
  | some s => s != ""

/-- `SUPPORTED_FORMATS` from index.js. -/
def SUPPORTED_FORMATS : List String :=
  ["epub", "mobi", "pdf", "pdf_hd", "prc", "cbz", "zip", "txt", "csv", "iso"]

/-- `ALLOWED_FORMATS = SUPPORTED_FORMATS.concat(["all"]).sort()` from
index.js (lexicographic sort, as JavaScript `Array.prototype.sort` on
these all-lowercase ASCII strings). -/
def ALLOWED_FORMATS : List String :=
  (SUPPORTED_FORMATS ++ ["all"]).mergeSort (fun a b => a ≤ b)

/-- The format-validity check in `main`:
`ALLOWED_FORMATS.indexOf(format) === -1` (i.e. the format is not an
element of `ALLOWED_FORMATS`). -/
def formatIsInvalid (fmt : String) : Bool :=
  !(ALLOWED_FORMATS.contains fmt)

/-- Outcome of the configuration-format validation step in `main`. -/
inductive ConfigCheck where
  | configError
  | proceed
deriving Repr, DecidableEq

/-- The validation step in `main`: an unrecognized format is reported as
a configuration error (red "Invalid format" message plus help/exit)
before any orchestration starts; otherwise the run proceeds. -/
def mainFormatValidation (fmt : String) : ConfigCheck :=
  if formatIsInvalid fmt then ConfigCheck.configError else ConfigCheck.proceed

/-- `normalizeFormat` from index.js: switch on the lowercased raw label. -/
def normalizeFormat (format : String) : String :=
  let f := strToLower format
  if f = ".cbz" then "cbz"
  else if f = "pdf (hq)" then "pdf_hd"
  else if f = "pdf (hd)" then "pdf_hd"
  else if f = "download" then "pdf"
  else f

/-- `getExtension` from index.js: switch on the lowercased format. -/
def getExtension (format : String) : String :=
  if strToLower format = "pdf_hd" then " (hd).pdf"
  else "." ++ format

/-- The `url` object of a download struct (`{ web: ... }`). -/
structure Url where
  web : String
deriving Repr, DecidableEq

/-- One `download_struct` entry (a `FormatVariant`): raw format label
`name`, the `url` object, the advertised checksums and human size.
Optional fields model possibly-absent JSON fields. -/
structure DownloadStruct where
  name : Option String
  url : Option Url
  sha1 : Option String
  md5 : Option String
  human_size : Option String
deriving Repr, DecidableEq

/-- One `downloads` entry (a `DownloadOption`): platform tag plus its
format variants. -/
structure DownloadOption where
  platform : String
  download_struct : List DownloadStruct
deriving Repr, DecidableEq

/-- One `subproducts` entry. -/
structure Subproduct where
  human_name : String
  downloads : List DownloadOption
deriving Repr, DecidableEq

/-- The `product` record of an order. -/
structure Product where
  human_name : String
deriving Repr, DecidableEq

/-- One order (a purchased bundle), as returned by detail resolution. -/
structure Order where
  gamekey : String
  product : Product
  subproducts : List Subproduct
deriving Repr, DecidableEq

/-- The platform tags reachable from an order, exactly as collected in
`fetchOrders`: `subproducts.flatMap(sp => sp.downloads.map(d => d.platform))`
(`flatten` applied to this list of plain strings is the identity). -/
def orderPlatforms (o : Order) : List String :=
  o.subproducts.flatMap (fun sp => sp.downloads.map (fun d => d.platform))

/-- The final filter of `fetchOrders`: keep orders whose platform list
contains the ebook tag. -/
def filterEbookOrders (orders : List Order) : List Order :=
  orders.filter (fun o => (orderPlatforms o).contains "ebook")

/-- One resolved download task, as pushed into `bundleDownloads` in
`downloadBundles`: `{ bundle, download, name }`. -/
structure ResolvedTask where
  bundle : String
  name : String
  download : DownloadStruct
deriving Repr, DecidableEq

/-- The predicate of the `filteredDownloadStructs` filter in
`downloadBundles`: reject entries whose `name` or `url` is falsy, then
include iff the configured format is "all" or equals the normalized
format.  (The filter body also records the normalized format into
`bundleFormats` for the diagnostic message; that bookkeeping does not
affect inclusion.) -/
def structIncluded (fmt : String) (d : DownloadStruct) : Bool :=
  if !jsTruthyStr d.name || !d.url.isSome then false
  else fmt == "all" || normalizeFormat (d.name.getD "") == fmt

/-- The download structs of a subproduct reachable through an
ebook-platform download option:
`subproduct.downloads.filter(d => d.platform === "ebook").flatMap(d => d.download_struct)`. -/
def subproductEbookStructs (sp : Subproduct) : List DownloadStruct :=
  (sp.downloads.filter (fun d => d.platform == "ebook")).flatMap
    (fun d => d.download_struct)

/-- The tasks contributed by one subproduct in `downloadBundles`. -/
def resolveSubproduct (fmt bundleName : String) (sp : Subproduct) :
    List ResolvedTask :=
  ((subproductEbookStructs sp).filter (structIncluded fmt)).map
    (fun d => { bundle := bundleName, name := sp.human_name, download := d })

/-- The `bundleDownloads` of one bundle in `downloadBundles`. -/
def resolveBundle (fmt : String) (b : Order) : List ResolvedTask :=
  b.subproducts.flatMap (resolveSubproduct fmt b.product.human_name)

/-- The overall `downloads` list assembled by `downloadBundles`.  A
bundle with no matching variants only logs a diagnostic and is skipped
(`continue`), which coincides with contributing the empty list. -/
def resolveDownloads (fmt : String) (bundles : List Order) :
    List ResolvedTask :=
  bundles.flatMap (resolveBundle fmt)

/-- Models the external `sanitize-filename` npm dependency (not part of
this repository): drop characters that are illegal in filenames. -/
def sanitizeFilename (s : String) : String :=
  String.mk (s.data.filter (fun c =>
    !(c == '/' || c == '?' || c == '<' || c == '>' || c == '\\' || c == ':' ||
      c == '*' || c == '|' || c == '"' || decide (c.toNat < 32))))

/-- The body of an HTTP response, as seen by the streaming transfer:
either the full content streams successfully, or the stream errors
mid-transfer after `partData` bytes were written. -/
inductive Body where
  | content (data : String)
  | streamFail (partData : String)
deriving Repr, DecidableEq

/-- An HTTP response as consumed by `downloadBook`. -/
structure Response where
  ok : Bool
  status : Nat
  statusText : String
  body : Body
deriving Repr, DecidableEq

/-- One entry of the run-scoped `downloadErrors` collection, as pushed
by `handleFileDownloadError`. -/
structure DownloadError where
  webUrl : String
  filePath : String
  status : Nat
  statusText : String
deriving Repr, DecidableEq

/-- The local filesystem, embedded as an association list from file
paths to file contents. -/
abbrev FileSys := List (String × String)

/-- Content of the file at `p`, if present. -/
def fsLookup (fs : FileSys) (p : String) : Option String :=
  (fs.find? (fun e => e.1 == p)).map (fun e => e.2)

/-- `fs.createWriteStream` + full write: create or overwrite `p`. -/
def fsWrite (fs : FileSys) (p c : String) : FileSys :=
  (p, c) :: fs.filter (fun e => e.1 != p)

/-- Successful `fs.unlink p`. -/
def fsRemove (fs : FileSys) (p : String) : FileSys :=
  fs.filter (fun e => e.1 != p)

/-- The mutable state threaded through a run: filesystem contents, the
run-scoped `downloadErrors` collection, and the list of URLs for which
a network fetch was issued (network-transfer instrumentation). -/
structure DLState where
  fs : FileSys
  errors : List DownloadError
  fetches : List String
deriving Repr, DecidableEq

/-- JavaScript exceptions escaping `downloadBook`.  `referenceError` is
the `ReferenceError` raised by the `catch` block of `downloadBook`,
whose first statement reads the identifier `response` — a `const`
declared inside the `try` block and therefore not in scope in the
`catch` block. -/
inductive JsError where
  | enoent
  | referenceError
deriving Repr, DecidableEq

/-- Result of a `downloadBook` call that returns normally: `skipped`
models `return true` (checksum matched), `completed` models the plain
`return` after `downloadFile`. -/
inductive BookResult where
  | skipped
  | completed
deriving Repr, DecidableEq

/-- Which hash kind `checkSignatureMatch` selects:
`download.sha1 ? "sha1" : "md5"` (JavaScript truthiness). -/
def chosenHashType (d : DownloadStruct) : String :=
  if jsTruthyStr d.sha1 then "sha1" else "md5"

/-- The advertised digest `download[hashType]` that
`checkSignatureMatch` compares against. -/
def advertisedChecksum (d : DownloadStruct) : Option String :=
  if jsTruthyStr d.sha1 then d.sha1 else d.md5

/-- `checkSignatureMatch` from index.js, parameterized by the digest
function `hashFn : hash kind → content → hex digest`.  A missing file
yields `false` (the ENOENT branch); a missing advertised digest makes
the comparison `hexDigest === undefined` false. -/
def checkSignatureMatch (hashFn : String → String → String) (fs : FileSys)
    (filePath : String) (download : DownloadStruct) : Bool :=
  match fsLookup fs filePath with
  | none => false
  | some fileContent =>
    match advertisedChecksum download with
    | none => false
    | some hashToVerify =>
      hashFn (chosenHashType download) fileContent == hashToVerify

/-- The destination path computed at the top of `downloadBook`:
`resolve(options.downloadFolder, sanitize(bundle))` joined with
`sanitize(name.trim() + getExtension(normalizeFormat(download.name)))`. -/
def taskFilePath (downloadFolder bundle name : String)
    (download : DownloadStruct) : String :=
  let downloadPath := downloadFolder ++ "/" ++ sanitizeFilename bundle
  let fileName :=
    strTrim name ++ getExtension (normalizeFormat (download.name.getD ""))
  downloadPath ++ "/" ++ sanitizeFilename fileName

/-- The `DownloadError` record pushed by `handleFileDownloadError`. -/
def mkDownloadError (download : DownloadStruct) (filePath : String)
    (response : Response) : DownloadError :=
  { webUrl := (download.url.map Url.web).getD ""
    filePath := filePath
    status := response.status
    statusText := response.statusText }

/-- `await downloadFile(response, filePath)` inside `downloadBook`'s
`try` block.  A full stream writes the body and returns normally.  A
mid-stream failure leaves the partially written file and rejects; the
rejection lands in `downloadBook`'s `catch` block, whose first statement
reads the out-of-scope `response`, so the surfaced exception is a
`ReferenceError` (the original error is never re-thrown and
`handleFileDownloadError` never runs on this path). -/
def downloadFileStep (response : Response) (filePath : String)
    (st : DLState) : Except JsError BookResult × DLState :=
  match response.body with
  | Body.content data =>
    (Except.ok BookResult.completed, { st with fs := fsWrite st.fs filePath data })
  | Body.streamFail partData =>
    (Except.error JsError.referenceError,
      { st with fs := fsWrite st.fs filePath partData })

/-- `downloadBook` from index.js, with `handleFileDownloadError`
inlined.  Control flow of the source:
1. compute the destination path, `checkSignatureMatch`; on a match
   `return true` (skipped) with no fetch;
2. otherwise `fetch(download.url.web)` (recorded in `fetches`);
3. if the response is not ok, `handleFileDownloadError` pushes a
   `DownloadError` and then `await fs.unlink(filePath)`; if no file
   exists there the unlink rejects with ENOENT, which lands in the
   `catch` block whose first statement reads the out-of-scope
   `response`, raising a `ReferenceError`; if the unlink succeeds the
   code falls through and still runs `downloadFile` on the non-ok
   response, writing its body to the destination;
4. an ok response streams the body to the destination
   (`downloadFileStep`).
`downloadBookTransfer` is the `try` block (steps 2–4) after the fetch,
with `handleFileDownloadError` inlined; `downloadBook` below prepends
the skip check and the fetch. -/
def downloadBookTransfer (response : Response) (download : DownloadStruct)
    (filePath : String) (st1 : DLState) : Except JsError BookResult × DLState :=
  if response.ok then
    downloadFileStep response filePath st1
  else
    if (fsLookup st1.fs filePath).isSome then
      downloadFileStep response filePath
        { fs := fsRemove st1.fs filePath
          errors := st1.errors ++ [mkDownloadError download filePath response]
          fetches := st1.fetches }
    else
      (Except.error JsError.referenceError,
        { st1 with errors := st1.errors ++ [mkDownloadError download filePath response] })

def downloadBook (hashFn : String → String → String)
    (fetchEnv : String → Response) (downloadFolder bundle name : String)
    (download : DownloadStruct) (st : DLState) :
    Except JsError BookResult × DLState :=
  if checkSignatureMatch hashFn st.fs
      (taskFilePath downloadFolder bundle name download) download then
    (Except.ok BookResult.skipped, st)
  else
    downloadBookTransfer (fetchEnv ((download.url.map Url.web).getD ""))
      download (taskFilePath downloadFolder bundle name download)
      { st with fetches := st.fetches ++ [(download.url.map Url.web).getD ""] }

/-- The batch driver of `downloadBundles`:
`await async.each(downloads, d => limiter.schedule(() => downloadBook ...))`
with the default `downloadLimit` of 1 (sequential starts).  `async.each`
is fail-fast: the first rejection of an iteratee rejects the awaited
promise, so an exception escaping `downloadBook` aborts the run (the
remaining tasks are not materialized; `main` catches and exits). -/
def runBatch (hashFn : String → String → String)
    (fetchEnv : String → Response) (downloadFolder : String)
    (tasks : List ResolvedTask) (st : DLState) :
    Except JsError (List BookResult) × DLState :=
  match tasks with
  | [] => (Except.ok [], st)
  | t :: rest =>
    match downloadBook hashFn fetchEnv downloadFolder t.bundle t.name t.download st with
    | (Except.ok r, st1) =>
      match runBatch hashFn fetchEnv downloadFolder rest st1 with
      | (Except.ok rs, st2) => (Except.ok (r :: rs), st2)
      | (Except.error e, st2) => (Except.error e, st2)
    | (Except.error e, st1) => (Except.error e, st1)

/-- Outcome of `downloadBundles`: the two early returns ("No bundles
selected" / "No downloads found matching the right format"), a batch
that ran to completion, or a batch aborted by an escaped exception. -/
inductive RunOutcome where
  | noBundles
  | noDownloads
  | completed (results : List BookResult)
  | crashed (e : JsError)
deriving Repr, DecidableEq

/-- `downloadBundles` from index.js: early return on an empty bundle
selection, resolution of the task list, early return when no task
matches the configured format, otherwise the batch run. -/
def downloadBundles (hashFn : String → String → String)
    (fetchEnv : String → Response) (fmt downloadFolder : String)
    (bundles : List Order) (st : DLState) : RunOutcome × DLState :=
  if bundles.isEmpty then (RunOutcome.noBundles, st)
  else
    let downloads := resolveDownloads fmt bundles
    if downloads.isEmpty then (RunOutcome.noDownloads, st)
    else
      match runBatch hashFn fetchEnv downloadFolder downloads st with
      | (Except.ok rs, st1) => (RunOutcome.completed rs, st1)
      | (Except.error e, st1) => (RunOutcome.crashed e, st1)

/-- Membership in `ALLOWED_FORMATS` coincides with membership in
`SUPPORTED_FORMATS` extended by "all" (sorting preserves membership). -/
theorem mem_ALLOWED_FORMATS_iff (fmt : String) :
    fmt ∈ ALLOWED_FORMATS ↔ (fmt ∈ SUPPORTED_FORMATS ∨ fmt = "all") := by
  unfold ALLOWED_FORMATS
  rw [List.mem_mergeSort, List.mem_append]
  simp

/-- C4: for every raw format label, `normalizeFormat` is the function
given by the normalization table, case-insensitively: any casing of
".cbz" maps to "cbz", any casing of "pdf (hq)" or "pdf (hd)" maps to
"pdf_hd", any casing of "download" maps to "pdf", and every other label
maps to its lowercased form. -/
theorem normalizeFormat_matches_table (s : String) :
    (strToLower s = ".cbz" → normalizeFormat s = "cbz") ∧
    ((strToLower s = "pdf (hq)" ∨ strToLower s = "pdf (hd)") →
      normalizeFormat s = "pdf_hd") ∧
    (strToLower s = "download" → normalizeFormat s = "pdf") ∧
    (strToLower s ≠ ".cbz" → strToLower s ≠ "pdf (hq)" →
      strToLower s ≠ "pdf (hd)" → strToLower s ≠ "download" →
      normalizeFormat s = strToLower s) := by
  unfold normalizeFormat
  refine ⟨fun h => ?_, fun h => ?_, fun h => ?_, fun h1 h2 h3 h4 => ?_⟩
  · simp [h]
  · rcases h with h | h <;> simp [h]
  · simp [h]
  · simp [h1, h2, h3, h4]

/-- Witness for C4: the table rows evaluated at concrete casings. -/
theorem normalizeFormat_matches_table_witness :
    normalizeFormat "PDF (HD)" = "pdf_hd" ∧ normalizeFormat ".CBZ" = "cbz" ∧
    normalizeFormat "Download" = "pdf" ∧ normalizeFormat "EPUB" = "epub" :=
  ⟨(normalizeFormat_matches_table "PDF (HD)").2.1 (Or.inr (by decide)),
   (normalizeFormat_matches_table ".CBZ").1 (by decide),
   (normalizeFormat_matches_table "Download").2.2.1 (by decide),
   ((normalizeFormat_matches_table "EPUB").2.2.2 (by decide) (by decide)
      (by decide) (by decide)).trans (by decide)⟩

/-- C9: for every normalized (hence lowercase) format token, the output
filename extension is " (hd).pdf" for "pdf_hd" and "." followed by the
token for every other format. -/
theorem getExtension_rule (t : String) (hlower : strToLower t = t) :
    (t = "pdf_hd" → getExtension t = " (hd).pdf") ∧
    (t ≠ "pdf_hd" → getExtension t = "." ++ t) := by
  unfold getExtension
  rw [hlower]
  constructor
  · intro h
    simp [h]
  · intro h
    simp [h]

/-- Witness for C9: the extension rule at the two concrete tokens
"pdf_hd" and "epub". -/
theorem getExtension_rule_witness :
    getExtension "pdf_hd" = " (hd).pdf" ∧ getExtension "epub" = ".epub" :=
  ⟨(getExtension_rule "pdf_hd" (by decide)).1 rfl,
   (getExtension_rule "epub" (by decide)).2 (by decide)⟩

/-- C7: the configured format is reported as a configuration error
before orchestration starts iff it lies outside
`SUPPORTED_FORMATS ∪ {"all"}`; every value inside the set proceeds past
validation. -/
theorem mainFormatValidation_iff (fmt : String) :
    mainFormatValidation fmt = ConfigCheck.configError ↔
      (fmt ∉ SUPPORTED_FORMATS ∧ fmt ≠ "all") := by
  unfold mainFormatValidation formatIsInvalid
  rcases h : ALLOWED_FORMATS.contains fmt with _ | _
  · have hmem : ¬ fmt ∈ ALLOWED_FORMATS := by
      simpa using h
    rw [mem_ALLOWED_FORMATS_iff] at hmem
    push_neg at hmem
    simp [hmem]
  · have hmem : fmt ∈ ALLOWED_FORMATS := by
      simpa using h
    rw [mem_ALLOWED_FORMATS_iff] at hmem
    simp only [Bool.not_true, if_neg]
    constructor
    · intro hcontra
      simp at hcontra
    · intro hout
      rcases hmem with hin | hall
      · exact absurd hin hout.1
      · exact absurd hall hout.2

/-- Witness for C7: an unsupported format is rejected, a supported one
proceeds. -/
theorem mainFormatValidation_iff_witness :
    mainFormatValidation "docx" = ConfigCheck.configError ∧
    mainFormatValidation "epub" = ConfigCheck.proceed := by
  constructor
  · exact (mainFormatValidation_iff "docx").mpr (by decide)
  · have hne : mainFormatValidation "epub" ≠ ConfigCheck.configError := by
      intro hc
      exact absurd ((mainFormatValidation_iff "epub").mp hc) (by decide)
    unfold mainFormatValidation at hne ⊢
    rcases h : formatIsInvalid "epub" with _ | _
    · simp [h]
    · simp [h] at hne

/-- C5: an order is retained by `fetchOrders`' final filter iff it was
in the input and at least one platform tag of one of its download
options equals "ebook"; the predicate examines only platform tags. -/
theorem filterEbookOrders_mem_iff (orders : List Order) (o : Order) :
    o ∈ filterEbookOrders orders ↔
      (o ∈ orders ∧ ∃ sp ∈ o.subproducts, ∃ dl ∈ sp.downloads,
        dl.platform = "ebook") := by
  unfold filterEbookOrders orderPlatforms
  rw [List.mem_filter]
  simp [List.mem_flatMap, eq_comm]

/-- Sample order carrying an ebook-platform download option. -/
def sampleEbookOrder : Order :=
  { gamekey := "k1"
    product := { human_name := "Bundle A" }
    subproducts :=
      [{ human_name := "Book 1"
         downloads :=
           [{ platform := "ebook"
              download_struct :=
                [{ name := some "PDF", url := some { web := "u1" },
                   sha1 := none, md5 := none, human_size := some "1 MB" }] }] }] }

/-- Sample order with no ebook-platform download option. -/
def sampleVideoOrder : Order :=
  { gamekey := "k2"
    product := { human_name := "Bundle B" }
    subproducts :=
      [{ human_name := "Video 1"
         downloads := [{ platform := "video", download_struct := [] }] }] }

/-- Witness for C5: the ebook order is retained, the video-only order is
dropped. -/
theorem filterEbookOrders_mem_iff_witness :
    sampleEbookOrder ∈ filterEbookOrders [sampleEbookOrder, sampleVideoOrder] ∧
    sampleVideoOrder ∉ filterEbookOrders [sampleEbookOrder, sampleVideoOrder] := by
  constructor
  · exact (filterEbookOrders_mem_iff _ _).mpr (by decide)
  · intro hmem
    exact absurd ((filterEbookOrders_mem_iff _ _).mp hmem).2 (by decide)

/-- C6: a variant appears in a bundle's resolved task set only if its
format label and URL are present (JavaScript-truthy); and an eligible
variant reachable through an ebook-platform download option is included
iff the selector is "all" or equals the variant's normalized format. -/
theorem resolveBundle_inclusion (fmt : String) (b : Order) :
    (∀ t ∈ resolveBundle fmt b,
      jsTruthyStr t.download.name = true ∧ t.download.url.isSome = true) ∧
    (∀ sp ∈ b.subproducts, ∀ d ∈ subproductEbookStructs sp,
      jsTruthyStr d.name = true → d.url.isSome = true →
      (({ bundle := b.product.human_name, name := sp.human_name,
          download := d } : ResolvedTask) ∈ resolveBundle fmt b ↔
        (fmt = "all" ∨ normalizeFormat (d.name.getD "") = fmt))) := by
  constructor
  · intro t ht
    rw [resolveBundle, List.mem_flatMap] at ht
    obtain ⟨sp, hsp, hmem⟩ := ht
    rw [resolveSubproduct, List.mem_map] at hmem
    obtain ⟨d, hd, heq⟩ := hmem
    rw [List.mem_filter] at hd
    have hinc := hd.2
    rw [structIncluded] at hinc
    subst heq
    by_cases h1 : jsTruthyStr d.name = true
    · by_cases h2 : d.url.isSome = true
      · exact ⟨h1, h2⟩
      · simp [h1, h2] at hinc
    · simp [h1] at hinc
  · intro sp hsp d hd h1 h2
    constructor
    · intro hmem
      rw [resolveBundle, List.mem_flatMap] at hmem
      obtain ⟨sp2, hsp2, hmem⟩ := hmem
      rw [resolveSubproduct, List.mem_map] at hmem
      obtain ⟨d2, hd2, heq⟩ := hmem
      have hdd : d2 = d := congrArg ResolvedTask.download heq
      subst hdd
      rw [List.mem_filter] at hd2
      have hinc := hd2.2
      rw [structIncluded] at hinc
      simp [h1, h2, beq_iff_eq] at hinc
      exact hinc
    · intro hcase
      rw [resolveBundle, List.mem_flatMap]
      refine ⟨sp, hsp, ?_⟩
      rw [resolveSubproduct, List.mem_map]
      refine ⟨d, ?_, rfl⟩
      rw [List.mem_filter]
      refine ⟨hd, ?_⟩
      rw [structIncluded]
      simp [h1, h2, beq_iff_eq]
      exact hcase

/-- Sample variant, subproduct and order for the C6 witness. -/
def c6sampleStruct : DownloadStruct :=
  { name := some "EPUB", url := some { web := "u6" }, sha1 := none, md5 := none,
    human_size := none }

def c6sampleSub : Subproduct :=
  { human_name := "Book 6"
    downloads := [{ platform := "ebook", download_struct := [c6sampleStruct] }] }

def c6sampleOrder : Order :=
  { gamekey := "k6", product := { human_name := "Bundle 6" },
    subproducts := [c6sampleSub] }

/-- Witness for C6: an eligible epub variant is included when the
selector is "epub". -/
theorem resolveBundle_inclusion_witness :
    ({ bundle := "Bundle 6", name := "Book 6", download := c6sampleStruct } :
      ResolvedTask) ∈ resolveBundle "epub" c6sampleOrder :=
  ((resolveBundle_inclusion "epub" c6sampleOrder).2 c6sampleSub (by decide)
    c6sampleStruct (by decide) (by decide) (by decide)).mpr (by decide)

/-- C8: an empty overall task set terminates the run successfully with
zero downloads and an unchanged state (no error is raised); a bundle
with zero matching variants contributes nothing (only the diagnostic)
and resolution continues with the remaining bundles. -/
theorem downloadBundles_empty_success (hashFn : String → String → String)
    (fetchEnv : String → Response) (fmt downloadFolder : String)
    (bundles : List Order) (b : Order) (rest : List Order) (st : DLState)
    (hne : bundles ≠ [])
    (hempty : resolveDownloads fmt bundles = [])
    (hbundle : resolveBundle fmt b = []) :
    downloadBundles hashFn fetchEnv fmt downloadFolder bundles st =
      (RunOutcome.noDownloads, st) ∧
    resolveDownloads fmt (b :: rest) = resolveDownloads fmt rest := by
  constructor
  · have h1 : bundles.isEmpty = false := by
      rcases bundles with _ | ⟨x, xs⟩
      · exact absurd rfl hne
      · rfl
    simp [downloadBundles, h1, hempty]
  · simp [resolveDownloads, List.flatMap_cons, hbundle]

/-- Sample bundle whose only variant is a mobi file, so that the "epub"
selector matches nothing. -/
def c8bundle : Order :=
  { gamekey := "k8", product := { human_name := "Bundle 8" },
    subproducts :=
      [{ human_name := "Book 8"
         downloads :=
           [{ platform := "ebook"
              download_struct :=
                [{ name := some "MOBI", url := some { web := "u8" },
                   sha1 := none, md5 := none, human_size := none }] }] }] }

/-- Witness for C8: with one bundle and no matching variant the run ends
in `noDownloads` with the state untouched. -/
theorem downloadBundles_empty_success_witness :
    downloadBundles (fun _ data => data)
      (fun _ => ⟨true, 200, "OK", Body.content ""⟩) "epub" "download"
      [c8bundle] ⟨[], [], []⟩ = (RunOutcome.noDownloads, ⟨[], [], []⟩) ∧
    resolveDownloads "epub" [c8bundle] = resolveDownloads "epub" [] :=
  downloadBundles_empty_success (fun _ data => data)
    (fun _ => ⟨true, 200, "OK", Body.content ""⟩) "epub" "download"
    [c8bundle] c8bundle [] ⟨[], [], []⟩ (by decide) (by decide) (by decide)

/-- Writing a file and reading it back at the same path yields the
written content. -/
theorem fsLookup_fsWrite_self (fs : FileSys) (p c : String) :
    fsLookup (fsWrite fs p c) p = some c := by
  unfold fsLookup fsWrite
  rw [List.find?_cons_of_pos]
  · rfl
  · simp

/-- `downloadFileStep` never reports `skipped`. -/
theorem downloadFileStep_fst_ne_skipped (response : Response)
    (filePath : String) (st : DLState) :
    (downloadFileStep response filePath st).1 ≠ Except.ok BookResult.skipped := by
  unfold downloadFileStep
  cases hb : response.body <;> simp

/-- `downloadFileStep` performs no additional fetch. -/
theorem downloadFileStep_fetches (response : Response) (filePath : String)
    (st : DLState) :
    (downloadFileStep response filePath st).2.fetches = st.fetches := by
  unfold downloadFileStep
  cases hb : response.body <;> rfl

/-- C3: materializing the same task twice against the same destination
is idempotent.  If the remote asset is unchanged and consistent (the
fetched body hashes, under the stronger advertised hash kind, to the
advertised checksum), then whatever the first `downloadBook` call did,
the second call reports `skipped` and leaves the state — in particular
the fetch instrumentation — untouched: zero network transfer. -/
theorem downloadBook_idempotent_skip (hashFn : String → String → String)
    (fetchEnv : String → Response) (downloadFolder bundle name : String)
    (download : DownloadStruct) (st : DLState) (c h : String)
    (hok : (fetchEnv ((download.url.map Url.web).getD "")).ok = true)
    (hbody : (fetchEnv ((download.url.map Url.web).getD "")).body = Body.content c)
    (hadv : advertisedChecksum download = some h)
    (hhash : hashFn (chosenHashType download) c = h)
    (r1 : Except JsError BookResult) (st1 : DLState)
    (hrun : downloadBook hashFn fetchEnv downloadFolder bundle name download st
      = (r1, st1)) :
    downloadBook hashFn fetchEnv downloadFolder bundle name download st1 =
      (Except.ok BookResult.skipped, st1) := by
  unfold downloadBook at hrun ⊢
  split at hrun
  next hchk =>
    injection hrun with hr hst
    subst hst
    rw [if_pos hchk]
  next hchk =>
    unfold downloadBookTransfer at hrun
    rw [if_pos hok] at hrun
    unfold downloadFileStep at hrun
    rw [hbody] at hrun
    injection hrun with hr hst
    subst hst
    have hchk2 : checkSignatureMatch hashFn
        (fsWrite st.fs (taskFilePath downloadFolder bundle name download) c)
        (taskFilePath downloadFolder bundle name download) download = true := by
      unfold checkSignatureMatch
      rw [fsLookup_fsWrite_self, hadv]
      simp [hhash]
    simp [hchk2]

/-- Concrete data for the C3 witness: the digest function returns the
content itself, and the advertised sha1 equals the asset body. -/
def c3struct : DownloadStruct :=
  { name := some "pdf", url := some { web := "u3" }, sha1 := some "DATA",
    md5 := none, human_size := none }

def c3fetchEnv : String → Response :=
  fun _ => ⟨true, 200, "OK", Body.content "DATA"⟩

def c3st1 : DLState :=
  { fs := [("download/B/Book.pdf", "DATA")], errors := [], fetches := ["u3"] }

/-- Witness for C3: after a first successful materialization the second
attempt reports skipped and changes nothing. -/
theorem downloadBook_idempotent_skip_witness :
    downloadBook (fun _ data => data) c3fetchEnv "download" "B" "Book"
      c3struct c3st1 = (Except.ok BookResult.skipped, c3st1) :=
  downloadBook_idempotent_skip (fun _ data => data) c3fetchEnv "download" "B"
    "Book" c3struct ⟨[], [], []⟩ "DATA" "DATA" (by decide) (by decide)
    (by decide) (by decide) (Except.ok BookResult.completed) c3st1 rfl

/-- C10: a variant advertising neither a sha1 nor an md5 checksum never
passes the skip check — whatever the filesystem contains at the
destination — so every `downloadBook` call on it issues the network
fetch and never reports `skipped`. -/
theorem no_checksum_never_skipped (hashFn : String → String → String)
    (fetchEnv : String → Response) (downloadFolder bundle name : String)
    (download : DownloadStruct) (st : DLState)
    (hsha : download.sha1 = none) (hmd5 : download.md5 = none) :
    checkSignatureMatch hashFn st.fs
        (taskFilePath downloadFolder bundle name download) download = false ∧
    (downloadBook hashFn fetchEnv downloadFolder bundle name download st).1 ≠
      Except.ok BookResult.skipped ∧
    (downloadBook hashFn fetchEnv downloadFolder bundle name download st).2.fetches
      = st.fetches ++ [(download.url.map Url.web).getD ""] := by
  have hadv : advertisedChecksum download = none := by
    unfold advertisedChecksum
    rw [hsha, hmd5]
    rfl
  have hchk : ∀ fsx : FileSys, checkSignatureMatch hashFn fsx
      (taskFilePath downloadFolder bundle name download) download = false := by
    intro fsx
    rcases hfs : fsLookup fsx (taskFilePath downloadFolder bundle name download)
      with _ | content
    · simp [checkSignatureMatch, hfs]
    · simp [checkSignatureMatch, hfs, hadv]
  refine ⟨hchk st.fs, ?_, ?_⟩
  · simp only [downloadBook, hchk, Bool.false_eq_true, if_false]
    unfold downloadBookTransfer
    split
    · exact downloadFileStep_fst_ne_skipped _ _ _
    · split
      · exact downloadFileStep_fst_ne_skipped _ _ _
      · simp
  · simp only [downloadBook, hchk, Bool.false_eq_true, if_false]
    unfold downloadBookTransfer
    split
    · exact (downloadFileStep_fetches _ _ _).trans rfl
    · split
      · exact (downloadFileStep_fetches _ _ _).trans rfl
      · rfl

/-- Concrete data for the C10 witness: a stale file exists at the
destination, yet the skip check fails and the asset is re-fetched. -/
def c10struct : DownloadStruct :=
  { name := some "pdf", url := some { web := "u10" }, sha1 := none,
    md5 := none, human_size := none }

def c10st : DLState :=
  { fs := [("download/B/Book.pdf", "OLD")], errors := [], fetches := [] }

/-- Witness for C10, at a state where a file already exists at the
destination path. -/
theorem no_checksum_never_skipped_witness :
    checkSignatureMatch (fun _ data => data) c10st.fs
        (taskFilePath "download" "B" "Book" c10struct) c10struct = false ∧
    (downloadBook (fun _ data => data)
        (fun _ => ⟨true, 200, "OK", Body.content "NEW"⟩) "download" "B" "Book"
        c10struct c10st).1 ≠ Except.ok BookResult.skipped ∧
    (downloadBook (fun _ data => data)
        (fun _ => ⟨true, 200, "OK", Body.content "NEW"⟩) "download" "B" "Book"
        c10struct c10st).2.fetches =
      c10st.fetches ++ [(c10struct.url.map Url.web).getD ""] :=
  no_checksum_never_skipped (fun _ data => data)
    (fun _ => ⟨true, 200, "OK", Body.content "NEW"⟩) "download" "B" "Book"
    c10struct c10st rfl rfl

/-- Concrete data for the C1 code-behavior theorem: a two-task batch
whose first task receives an HTTP 404 and has no pre-existing file at
its destination. -/
def c1struct1 : DownloadStruct :=
  { name := some "pdf", url := some { web := "u1" }, sha1 := none,
    md5 := none, human_size := some "1 MB" }

def c1struct2 : DownloadStruct :=
  { name := some "pdf", url := some { web := "u2" }, sha1 := none,
    md5 := none, human_size := some "2 MB" }

def c1task1 : ResolvedTask :=
  { bundle := "B1", name := "Book1", download := c1struct1 }

def c1task2 : ResolvedTask :=
  { bundle := "B2", name := "Book2", download := c1struct2 }

def c1fetchEnv : String → Response := fun u =>
  if u == "u1" then ⟨false, 404, "Not Found", Body.content "error page"⟩
  else ⟨true, 200, "OK", Body.content "DATA"⟩

/-- C1, actual code behavior at the failing input: the 404 on the first
task makes `handleFileDownloadError` record the `DownloadError` and then
`fs.unlink` a nonexistent file; the resulting ENOENT rejection lands in
the `catch` block, whose reference to the out-of-scope `response` raises
a `ReferenceError`, aborting the batch.  The second task is never
attempted (`fetches = ["u1"]`): the run does not complete with N−1
successes. -/
theorem batch_aborts_on_single_404 :
    runBatch (fun _ data => data) c1fetchEnv "download" [c1task1, c1task2]
      ⟨[], [], []⟩ =
      (Except.error JsError.referenceError,
        { fs := []
          errors := [{ webUrl := "u1", filePath := "download/B1/Book1.pdf",
                       status := 404, statusText := "Not Found" }]
          fetches := ["u1"] }) := rfl

/-- Concrete data for the C2 code-behavior theorem. -/
def c2struct : DownloadStruct :=
  { name := some "pdf", url := some { web := "u2" }, sha1 := none,
    md5 := none, human_size := none }

/-- C2, actual code behavior at two failing transfers.  First conjunct:
a transport-level stream error mid-transfer raises the `catch` block's
`ReferenceError` before `handleFileDownloadError` runs, so no
`DownloadError` is recorded and the partial file remains at the
destination.  Second conjunct: a 404 with a stale file at the
destination records the error and unlinks the stale file, but the code
then falls through to `downloadFile` and writes the 404 response body to
the destination, leaving a file there. -/
theorem transfer_failure_cleanup_violated :
    (downloadBook (fun _ data => data)
        (fun _ => ⟨true, 200, "OK", Body.streamFail "PART"⟩) "download" "B"
        "Book" c2struct ⟨[], [], []⟩ =
      (Except.error JsError.referenceError,
        { fs := [("download/B/Book.pdf", "PART")], errors := [],
          fetches := ["u2"] })) ∧
    (downloadBook (fun _ data => data)
        (fun _ => ⟨false, 404, "Not Found", Body.content "error page"⟩)
        "download" "B" "Book" c2struct
        ⟨[("download/B/Book.pdf", "STALE")], [], []⟩ =
      (Except.ok BookResult.completed,
        { fs := [("download/B/Book.pdf", "error page")]
          errors := [{ webUrl := "u2", filePath := "download/B/Book.pdf",
                       status := 404, statusText := "Not Found" }]
          fetches := ["u2"] })) :=
  ⟨rfl, rfl⟩

end HB
